import Mathlib

/-!
Verification development for a tool-using conversational agent.

The repository has two parts:
* `agent/tools.py` — four tool functions (`get_coordinates_from_city`,
  `get_current_weather`, `search_wikipedia`, `calculate`), each converting an
  upstream outcome to a textual payload;
* `agent/agent.py` — a control loop (`LLMAgent`) stepping a graph of an
  `agent` node (the model) and a `tools` node until the model answers
  without tool requests.

The embedding below translates the tool functions and the control loop into
Lean definitions.  HTTP responses are represented by an explicit upstream
outcome datatype (an argument of each tool), JSON payloads by a scalar JSON
value type, and Python evaluation inside `calculate` by a small-step
evaluator over the expression fragment the development reasons about.
-/

namespace AgentSpec

/-- Scalar JSON values as they occur in the tool payloads of this repository.
Nested arrays/objects never appear as field values in the modelled payloads,
so field values are scalars. -/
inductive JVal where
  | null : JVal
  | bool (b : Bool) : JVal
  | num (q : ℚ) : JVal
  | str (s : String) : JVal
deriving DecidableEq, Repr

/-- A JSON object payload: an ordered list of string-keyed fields, the order
being the serialization order of `model_dump_json` / `json.dumps`. -/
def JObj : Type := List (String × JVal)

instance : DecidableEq JObj := by
  unfold JObj
  infer_instance

/-- Field lookup in a JSON object (first binding wins, as in a Python dict). -/
def JObj.lookup (o : JObj) (k : String) : Option JVal :=
  match o with
  | [] => none
  | (k2, v) :: rest => if k2 = k then some v else JObj.lookup rest k

/-- The error payload `json.dumps({"error": msg})` shared by all three HTTP
tools. -/
def errPayload (msg : String) : JObj := [("error", JVal.str msg)]

/-- Whether a payload is an error object: a single field named `error`
holding a string, exactly the shape produced by `errPayload`. -/
def isErrPayload (o : JObj) : Bool :=
  match o with
  | [("error", JVal.str _)] => true
  | _ => false

/-! ### String containment helpers -/

/-- `subAt needle hay` is true when `needle` occurs at the head of `hay`. -/
def subAt : List Char → List Char → Bool
  | [], _ => true
  | _ :: _, [] => false
  | a :: as2, b :: bs => a == b && subAt as2 bs

/-- `hasSub hay needle` is true when `needle` occurs somewhere in `hay`. -/
def hasSub : List Char → List Char → Bool
  | [], needle => subAt needle []
  | c :: rest, needle => subAt needle (c :: rest) || hasSub rest needle

/-- Case-sensitive substring test on strings. -/
def strHasSub (hay needle : String) : Bool :=
  hasSub hay.data needle.data

/-- Case-insensitive substring test on strings. -/
def strHasSubCI (hay needle : String) : Bool :=
  hasSub (hay.data.map Char.toLower) (needle.data.map Char.toLower)

/-! ### Upstream outcomes

Each tool performs `requests.get(..., timeout=30)`, then
`raise_for_status()`, then `response.json()`.  The observable outcomes of
that call sequence, as discriminated by the `except` arms of the source, are:
a timeout (`requests.exceptions.Timeout`), any other request failure
including a non-2xx status raised by `raise_for_status`
(`requests.exceptions.RequestException`), an undecodable body
(`json.JSONDecodeError`), an unexpected exception, or a decoded JSON
document `data`. -/

inductive Upstream (α : Type) where
  | timeout : Upstream α
  | reqError (msg : String) : Upstream α
  | badJson : Upstream α
  | otherExc (msg : String) : Upstream α
  | ok (data : α) : Upstream α

/-! ### Pydantic field coercions

`Coordinates`, `CurrentWeather` and `WikipediaArticle` are pydantic models.
A missing upstream field reaches the model constructor as `None` and fails
validation; a present field validates when it carries the declared scalar
type.  The development only ever exercises fields that are either absent or
carry the declared type, which these coercions capture. -/

/-- Validation of a `float` field: present and numeric. -/
def coerceFloat : Option JVal → Option ℚ
  | some (JVal.num q) => some q
  | _ => none

/-- Validation of an `int` field: present, numeric and integral. -/
def coerceInt : Option JVal → Option ℤ
  | some (JVal.num q) => if q.den = 1 then some q.num else none
  | _ => none

/-- Validation of a `str` field: present and a string. -/
def coerceStr : Option JVal → Option String
  | some (JVal.str s) => some s
  | _ => none

/-- The `json.dumps({"error": f"Failed to validate ... schema: e.errors()"})`
payload.  The rendering of `e.errors()` is abstracted to the list of failing
field names; no claim depends on its exact text. -/
def schemaErrPayload (what : String) (fields : List String) : JObj :=
  errPayload ("Failed to validate " ++ what ++ " schema: " ++
    String.intercalate ", " fields)

/-! ### `get_coordinates_from_city` (tools.py lines 31-73) -/

/-- One entry of the geocoding `results` array.  The source reads `name`,
`latitude`, `longitude` and `country` with `.get` (absent keys give `None`). -/
structure GeoResult where
  name : Option JVal
  latitude : Option JVal
  longitude : Option JVal
  country : Option JVal

/-- The decoded geocoding document: `data.get("results")` is either absent
(`none`) or a list. -/
structure GeoData where
  results : Option (List GeoResult)

/-- Names of the `Coordinates` fields that fail validation, in field
declaration order.  `name` and `country` are passed to `Coordinates(**...)`
but are not fields of the model and are ignored (pydantic default
`extra` behaviour). -/
def geoFieldErrors (r : GeoResult) : List String :=
  (if (coerceFloat r.latitude).isNone then ["latitude"] else []) ++
  (if (coerceFloat r.longitude).isNone then ["longitude"] else [])

/-- `get_coordinates_from_city(city_name)` as a function of the upstream
outcome.  Mirrors tools.py lines 45-73: zero or missing results give the
not-found error payload; the first result is validated as `Coordinates` and
serialized with fields `latitude`, `longitude`. -/
def get_coordinates_from_city (city_name : String) :
    Upstream GeoData → JObj
  | Upstream.timeout => errPayload "Geocoding API request timed out."
  | Upstream.reqError e =>
      errPayload ("Error connecting to Geocoding API: " ++ e)
  | Upstream.badJson =>
      errPayload "Failed to decode JSON response from Geocoding API."
  | Upstream.otherExc e =>
      errPayload ("An unexpected error occurred during coordinate retrieval: "
        ++ e)
  | Upstream.ok data =>
      match data.results with
      | none =>
          errPayload ("Could not find coordinates for city: " ++ city_name)
      | some [] =>
          errPayload ("Could not find coordinates for city: " ++ city_name)
      | some (top :: _) =>
          match coerceFloat top.latitude, coerceFloat top.longitude with
          | some la, some lo =>
              [("latitude", JVal.num la), ("longitude", JVal.num lo)]
          | _, _ => schemaErrPayload "coordinates" (geoFieldErrors top)

/-! ### `get_current_weather` (tools.py lines 76-122) -/

/-- The `current` block of the forecast document; each field read with
`.get`. -/
structure CurrentBlock where
  temperature_2m : Option JVal
  wind_speed_10m : Option JVal
  relative_humidity_2m : Option JVal
  is_day : Option JVal
  weather_code : Option JVal
  time : Option JVal

/-- The decoded forecast document.  The upstream echoes its own `latitude`
and `longitude`, which the source never reads; `current` is present or not
(`"current" not in data`). -/
structure WeatherData where
  latitude : Option JVal
  longitude : Option JVal
  current : Option CurrentBlock

/-- Names of the `CurrentWeather` fields that fail validation, in field
declaration order.  `latitude` and `longitude` come from the (float) call
arguments and always validate. -/
def weatherFieldErrors (c : CurrentBlock) : List String :=
  (if (coerceFloat c.temperature_2m).isNone then ["temperature"] else []) ++
  (if (coerceFloat c.wind_speed_10m).isNone then ["wind_speed"] else []) ++
  (if (coerceFloat c.relative_humidity_2m).isNone then
    ["relative_humidity_2m"] else []) ++
  (if (coerceInt c.is_day).isNone then ["is_day"] else []) ++
  (if (coerceInt c.weather_code).isNone then ["weather_code"] else []) ++
  (if (coerceStr c.time).isNone then ["time"] else [])

/-- `get_current_weather(latitude, longitude)` as a function of the upstream
outcome.  Mirrors tools.py lines 91-122: no `current` key gives the
no-data error; otherwise the eight-field `CurrentWeather` model is built
from the two arguments and the six `current` fields and serialized in field
declaration order. -/
def get_current_weather (latitude longitude : ℚ) :
    Upstream WeatherData → JObj
  | Upstream.timeout => errPayload "Weather API request timed out."
  | Upstream.reqError e =>
      errPayload ("Error connecting to Weather API: " ++ e)
  | Upstream.badJson =>
      errPayload "Failed to decode JSON response from Weather API."
  | Upstream.otherExc e =>
      errPayload ("An unexpected error occurred during weather retrieval: "
        ++ e)
  | Upstream.ok data =>
      match data.current with
      | none => errPayload "No current weather data available for this location."
      | some c =>
          match coerceFloat c.temperature_2m, coerceFloat c.wind_speed_10m,
              coerceFloat c.relative_humidity_2m, coerceInt c.is_day,
              coerceInt c.weather_code, coerceStr c.time with
          | some t, some w, some h, some d, some wc, some tm =>
              [("latitude", JVal.num latitude),
               ("longitude", JVal.num longitude),
               ("temperature", JVal.num t),
               ("wind_speed", JVal.num w),
               ("relative_humidity_2m", JVal.num h),
               ("is_day", JVal.num (d : ℚ)),
               ("weather_code", JVal.num (wc : ℚ)),
               ("time", JVal.str tm)]
          | _, _, _, _, _, _ =>
              schemaErrPayload "weather data" (weatherFieldErrors c)

/-- Validation of a tool output against the declared `CurrentWeather` shape:
all eight fields present with their declared scalar types.  This is the
round-trip check the tests perform with
`CurrentWeather(**json.loads(output))`. -/
def validatesAsCurrentWeather (o : JObj) : Bool :=
  (coerceFloat (o.lookup "latitude")).isSome &&
  (coerceFloat (o.lookup "longitude")).isSome &&
  (coerceFloat (o.lookup "temperature")).isSome &&
  (coerceFloat (o.lookup "wind_speed")).isSome &&
  (coerceFloat (o.lookup "relative_humidity_2m")).isSome &&
  (coerceInt (o.lookup "is_day")).isSome &&
  (coerceInt (o.lookup "weather_code")).isSome &&
  (coerceStr (o.lookup "time")).isSome

/-! ### `search_wikipedia` (tools.py lines 125-175) -/

/-- One page entry.  `hasMissing` models the key test `"missing" in
page_data`; `hasSummary` models `"summary" in page_data`; the remaining
fields are read with `.get`. -/
structure WikiPage where
  hasMissing : Bool
  title : Option JVal
  hasSummary : Bool
  summary : Option JVal
  extract : Option JVal
  fullurl : Option JVal

/-- The decoded encyclopedia document:
`data.get("query", {}).get("pages", {})`, pages keyed by page id in
insertion order (`next(iter(pages))` takes the first). -/
structure WikiData where
  query : Option (Option (List (String × WikiPage)))

/-- The pages mapping after the defaulted `.get` chain. -/
def wikiPages (d : WikiData) : List (String × WikiPage) :=
  match d.query with
  | none => []
  | some none => []
  | some (some ps) => ps

/-- Names of the `WikipediaArticle` fields that fail validation. -/
def wikiFieldErrors (p : WikiPage) : List String :=
  (if (coerceStr p.title).isNone then ["title"] else []) ++
  (if (coerceStr (if p.hasSummary then p.summary else p.extract)).isNone
    then ["summary"] else []) ++
  (if (coerceStr p.fullurl).isNone then ["url"] else [])

/-- `search_wikipedia(query)` as a function of the upstream outcome.
Mirrors tools.py lines 144-175, including the two distinct not-found
messages of lines 150 and 156. -/
def search_wikipedia (query : String) : Upstream WikiData → JObj
  | Upstream.timeout => errPayload "Wikipedia API request timed out."
  | Upstream.reqError e =>
      errPayload ("Error connecting to Wikipedia API: " ++ e)
  | Upstream.badJson =>
      errPayload "Failed to decode JSON response from Wikipedia API."
  | Upstream.otherExc e =>
      errPayload ("An unexpected error occurred during Wikipedia search: "
        ++ e)
  | Upstream.ok data =>
      match wikiPages data with
      | [] => errPayload "No wikipedia article found for the query"
      | (_, page) :: _ =>
          if page.hasMissing then
            errPayload "No wikipedia article found the query"
          else
            match coerceStr page.title,
                coerceStr (if page.hasSummary then page.summary
                  else page.extract),
                coerceStr page.fullurl with
            | some t, some s, some u =>
                [("title", JVal.str t), ("summary", JVal.str s),
                 ("url", JVal.str u)]
            | _, _, _ => schemaErrPayload "Wikipedia article"
                (wikiFieldErrors page)

/-! ### `calculate` (tools.py lines 178-193)

`calculate` runs `eval(expression)` — the general-purpose Python evaluator
over the globals of the tools module — and converts `SyntaxError`,
`NameError` and every other `Exception` subclass into an error string.
Exceptions deriving from `BaseException` but not `Exception` (notably
`SystemExit`) are not caught by any arm and leave the function.

The evaluator below covers the Python expression fragment exercised by the
development: integer and string literals, names, `+ - *` on integers,
string concatenation, tuple displays, attribute access / subscription /
calls on the `globals()` dictionary, and the builtin constants and functions
`True`, `False`, `None`, `globals`, `exit`, `quit`.  Module-level names of
tools.py (`json`, `requests`, ...) and the remaining builtins are outside
the fragment; no theorem depends on them. -/

/-- Values of the modelled Python fragment.  `globalsDict` is the dictionary
object returned by `globals()`, `builtin` a builtin function object and
`method` a method bound to the globals dictionary. -/
inductive PyVal where
  | int (n : ℤ) : PyVal
  | bool (b : Bool) : PyVal
  | str (s : String) : PyVal
  | none : PyVal
  | tuple2 (a b : PyVal) : PyVal
  | globalsDict : PyVal
  | builtin (name : String) : PyVal
  | method (name : String) : PyVal
deriving DecidableEq, Repr

/-- Exceptions of the modelled fragment.  `nameError` and `exc` derive from
`Exception` and are caught by the `except` arms of `calculate`;
`systemExit` models `SystemExit`, which derives only from `BaseException`
and is caught by no arm. -/
inductive PyErr where
  | nameError (n : String) : PyErr
  | exc (msg : String) : PyErr
  | systemExit : PyErr
deriving DecidableEq, Repr

/-- Expressions of the modelled Python fragment.  `call0`/`call2` are calls
with zero/two arguments, all that the fragment needs. -/
inductive PyExpr where
  | intLit (n : ℤ) : PyExpr
  | strLit (s : String) : PyExpr
  | name (s : String) : PyExpr
  | add (a b : PyExpr) : PyExpr
  | sub (a b : PyExpr) : PyExpr
  | mul (a b : PyExpr) : PyExpr
  | tupleE (a b : PyExpr) : PyExpr
  | call0 (f : PyExpr) : PyExpr
  | call2 (f a b : PyExpr) : PyExpr
  | attr (e : PyExpr) (field : String) : PyExpr
  | subscript (e i : PyExpr) : PyExpr
deriving DecidableEq, Repr

/-- The mutable module globals reachable from `eval`, as an association
list.  The entries of tools.py that exist before any `calculate` call
(`json`, `requests`, ...) hold values outside the fragment and are omitted;
only keys created by evaluated expressions appear. -/
def Globals : Type := List (String × PyVal)

/-- Dictionary read (`.get` behaviour is built on top of this). -/
def gLookup : Globals → String → Option PyVal
  | [], _ => Option.none
  | (k2, v) :: rest, k => if k2 = k then some v else gLookup rest k

/-- Dictionary write (`d[k] = v` / `d.__setitem__(k, v)`). -/
def gSet : Globals → String → PyVal → Globals
  | [], k, v => [(k, v)]
  | (k2, w) :: rest, k, v =>
      if k2 = k then (k2, v) :: rest else (k2, w) :: gSet rest k v

/-- Name resolution of `eval(expression)` inside `calculate`: module globals
first, then the builtins of the fragment.  An unknown name raises
`NameError`.  `exit` and `quit` are the quitter objects installed by the
`site` module; calling them raises `SystemExit`. -/
def resolveName (g : Globals) (s : String) : Except PyErr PyVal :=
  match gLookup g s with
  | some v => Except.ok v
  | Option.none =>
      if s = "True" then Except.ok (PyVal.bool true)
      else if s = "False" then Except.ok (PyVal.bool false)
      else if s = "None" then Except.ok PyVal.none
      else if s = "globals" then Except.ok (PyVal.builtin "globals")
      else if s = "exit" || s = "quit" then Except.ok (PyVal.builtin "exit")
      else Except.error (PyErr.nameError s)

/-- Binary `+ - *` on fragment values: integer arithmetic and string
concatenation for `+`; anything else raises `TypeError`. -/
def applyBin (op : String) (a b : PyVal) : Except PyErr PyVal :=
  match op, a, b with
  | "add", PyVal.int x, PyVal.int y => Except.ok (PyVal.int (x + y))
  | "add", PyVal.str x, PyVal.str y => Except.ok (PyVal.str (x ++ y))
  | "sub", PyVal.int x, PyVal.int y => Except.ok (PyVal.int (x - y))
  | "mul", PyVal.int x, PyVal.int y => Except.ok (PyVal.int (x * y))
  | _, _, _ =>
      Except.error (PyErr.exc "unsupported operand type(s)")

/-- Evaluation of the fragment, threading the mutable globals.  Operands
evaluate left to right, as in Python. -/
def pyEval : Globals → PyExpr → Except PyErr PyVal × Globals
  | g, PyExpr.intLit n => (Except.ok (PyVal.int n), g)
  | g, PyExpr.strLit s => (Except.ok (PyVal.str s), g)
  | g, PyExpr.name s => (resolveName g s, g)
  | g, PyExpr.add a b =>
      match pyEval g a with
      | (Except.error e, g1) => (Except.error e, g1)
      | (Except.ok va, g1) =>
          match pyEval g1 b with
          | (Except.error e, g2) => (Except.error e, g2)
          | (Except.ok vb, g2) => (applyBin "add" va vb, g2)
  | g, PyExpr.sub a b =>
      match pyEval g a with
      | (Except.error e, g1) => (Except.error e, g1)
      | (Except.ok va, g1) =>
          match pyEval g1 b with
          | (Except.error e, g2) => (Except.error e, g2)
          | (Except.ok vb, g2) => (applyBin "sub" va vb, g2)
  | g, PyExpr.mul a b =>
      match pyEval g a with
      | (Except.error e, g1) => (Except.error e, g1)
      | (Except.ok va, g1) =>
          match pyEval g1 b with
          | (Except.error e, g2) => (Except.error e, g2)
          | (Except.ok vb, g2) => (applyBin "mul" va vb, g2)
  | g, PyExpr.tupleE a b =>
      match pyEval g a with
      | (Except.error e, g1) => (Except.error e, g1)
      | (Except.ok va, g1) =>
          match pyEval g1 b with
          | (Except.error e, g2) => (Except.error e, g2)
          | (Except.ok vb, g2) => (Except.ok (PyVal.tuple2 va vb), g2)
  | g, PyExpr.call0 f =>
      match pyEval g f with
      | (Except.error e, g1) => (Except.error e, g1)
      | (Except.ok v, g1) =>
          match v with
          | PyVal.builtin "globals" => (Except.ok PyVal.globalsDict, g1)
          | PyVal.builtin "exit" => (Except.error PyErr.systemExit, g1)
          | _ => (Except.error (PyErr.exc "object is not callable"), g1)
  | g, PyExpr.attr e f =>
      match pyEval g e with
      | (Except.error er, g1) => (Except.error er, g1)
      | (Except.ok v, g1) =>
          match v with
          | PyVal.globalsDict =>
              if f = "get" || f = "__setitem__" then
                (Except.ok (PyVal.method f), g1)
              else (Except.error (PyErr.exc "AttributeError"), g1)
          | _ => (Except.error (PyErr.exc "AttributeError"), g1)
  | g, PyExpr.call2 f a b =>
      match pyEval g f with
      | (Except.error e, g1) => (Except.error e, g1)
      | (Except.ok vf, g1) =>
          match pyEval g1 a with
          | (Except.error e, g2) => (Except.error e, g2)
          | (Except.ok va, g2) =>
              match pyEval g2 b with
              | (Except.error e, g3) => (Except.error e, g3)
              | (Except.ok vb, g3) =>
                  match vf with
                  | PyVal.method "get" =>
                      match va with
                      | PyVal.str k =>
                          (Except.ok ((gLookup g3 k).getD vb), g3)
                      | _ => (Except.ok vb, g3)
                  | PyVal.method "__setitem__" =>
                      match va with
                      | PyVal.str k => (Except.ok PyVal.none, gSet g3 k vb)
                      | _ =>
                          (Except.error (PyErr.exc "unhashable key"), g3)
                  | _ =>
                      (Except.error (PyErr.exc "object is not callable"), g3)
  | g, PyExpr.subscript e i =>
      match pyEval g e with
      | (Except.error er, g1) => (Except.error er, g1)
      | (Except.ok v, g1) =>
          match v with
          | PyVal.globalsDict =>
              match pyEval g1 i with
              | (Except.error er, g2) => (Except.error er, g2)
              | (Except.ok (PyVal.str k), g2) =>
                  match gLookup g2 k with
                  | some w => (Except.ok w, g2)
                  | Option.none => (Except.error (PyErr.exc "KeyError"), g2)
              | (Except.ok _, g2) => (Except.error (PyErr.exc "KeyError"), g2)
          | _ =>
              (Except.error (PyErr.exc "object is not subscriptable"), g1)

/-- Python `repr` of fragment values (used inside tuple rendering). -/
def pyRepr : PyVal → String
  | PyVal.int n => toString n
  | PyVal.bool true => "True"
  | PyVal.bool false => "False"
  | PyVal.str s => "\x27" ++ s ++ "\x27"
  | PyVal.none => "None"
  | PyVal.tuple2 a b => "(" ++ pyRepr a ++ ", " ++ pyRepr b ++ ")"
  | PyVal.globalsDict => "<globals dict>"
  | PyVal.builtin n => "<builtin " ++ n ++ ">"
  | PyVal.method n => "<method " ++ n ++ ">"

/-- Python `str` of fragment values, as produced by `str(result)` in
`calculate`. -/
def pyStr : PyVal → String
  | PyVal.str s => s
  | PyVal.tuple2 a b => "(" ++ pyRepr a ++ ", " ++ pyRepr b ++ ")"
  | v => pyRepr v

/-! #### Tokenizer and parser for arithmetic expression strings

`eval` first parses the expression.  The concrete expression strings the
theorems evaluate (`10 + 5 * 2`, `True`, `exit()`) lie in the token
language below, on which Python and this parser agree: integer literals,
identifiers, `+ - *`, parentheses, a zero-argument call suffix and spaces.
A string the tokenizer or parser rejects is treated as a `SyntaxError`; no
theorem quantifies over strings outside the token language. -/

inductive Tok where
  | num (n : ℤ) : Tok
  | ident (s : String) : Tok
  | plus : Tok
  | minus : Tok
  | star : Tok
  | lparen : Tok
  | rparen : Tok
deriving DecidableEq, Repr

/-- Splits a leading run of digits. -/
def lexDigits : List Char → List Char × List Char
  | [] => ([], [])
  | c :: cs =>
      if c.isDigit then
        let p := lexDigits cs
        (c :: p.1, p.2)
      else ([], c :: cs)

/-- Splits a leading run of identifier characters. -/
def lexIdent : List Char → List Char × List Char
  | [] => ([], [])
  | c :: cs =>
      if c.isAlpha || c = '_' || c.isDigit then
        let p := lexIdent cs
        (c :: p.1, p.2)
      else ([], c :: cs)

/-- Numeric value of a digit run. -/
def digitsVal (ds : List Char) : ℕ :=
  ds.foldl (fun a c => a * 10 + (c.toNat - 48)) 0

/-- Fuel-indexed tokenizer; every step consumes at least one character, so
fuel `length + 1` always suffices. -/
def tokenizeAux : ℕ → List Char → Option (List Tok)
  | 0, [] => some []
  | 0, _ :: _ => Option.none
  | fuel + 1, [] =>
      let _ := fuel
      some []
  | fuel + 1, c :: cs =>
      if c = ' ' then tokenizeAux fuel cs
      else if c.isDigit then
        let p := lexDigits (c :: cs)
        (tokenizeAux fuel p.2).map
          (fun ts => Tok.num (Int.ofNat (digitsVal p.1)) :: ts)
      else if c.isAlpha || c = '_' then
        let p := lexIdent (c :: cs)
        (tokenizeAux fuel p.2).map
          (fun ts => Tok.ident (String.mk p.1) :: ts)
      else if c = '+' then (tokenizeAux fuel cs).map (fun ts => Tok.plus :: ts)
      else if c = '-' then (tokenizeAux fuel cs).map (fun ts => Tok.minus :: ts)
      else if c = '*' then (tokenizeAux fuel cs).map (fun ts => Tok.star :: ts)
      else if c = '(' then (tokenizeAux fuel cs).map (fun ts => Tok.lparen :: ts)
      else if c = ')' then (tokenizeAux fuel cs).map (fun ts => Tok.rparen :: ts)
      else Option.none

/-- Tokenizes an expression string. -/
def tokenize (s : String) : Option (List Tok) :=
  tokenizeAux (s.data.length + 1) s.data

mutual

/-- Atoms: integer literals, names, names with a zero-argument call suffix,
parenthesized expressions. -/
def parseAtom : ℕ → List Tok → Option (PyExpr × List Tok)
  | 0, _ => Option.none
  | fuel + 1, toks =>
      match toks with
      | Tok.num n :: rest => some (PyExpr.intLit n, rest)
      | Tok.ident s :: Tok.lparen :: Tok.rparen :: rest =>
          some (PyExpr.call0 (PyExpr.name s), rest)
      | Tok.ident s :: rest => some (PyExpr.name s, rest)
      | Tok.lparen :: rest =>
          match parseAdd fuel rest with
          | some (e, Tok.rparen :: rest2) => some (e, rest2)
          | _ => Option.none
      | _ => Option.none

/-- Multiplicative level. -/
def parseMul : ℕ → List Tok → Option (PyExpr × List Tok)
  | 0, _ => Option.none
  | fuel + 1, toks =>
      match parseAtom fuel toks with
      | some (a, rest) => parseMulRest fuel a rest
      | Option.none => Option.none

/-- Left-associated chain of `*`. -/
def parseMulRest : ℕ → PyExpr → List Tok → Option (PyExpr × List Tok)
  | 0, _, _ => Option.none
  | fuel + 1, acc, Tok.star :: rest =>
      match parseAtom fuel rest with
      | some (b, rest2) => parseMulRest fuel (PyExpr.mul acc b) rest2
      | Option.none => Option.none
  | _ + 1, acc, toks => some (acc, toks)

/-- Additive level. -/
def parseAdd : ℕ → List Tok → Option (PyExpr × List Tok)
  | 0, _ => Option.none
  | fuel + 1, toks =>
      match parseMul fuel toks with
      | some (a, rest) => parseAddRest fuel a rest
      | Option.none => Option.none

/-- Left-associated chain of `+` and `-`. -/
def parseAddRest : ℕ → PyExpr → List Tok → Option (PyExpr × List Tok)
  | 0, _, _ => Option.none
  | fuel + 1, acc, Tok.plus :: rest =>
      match parseMul fuel rest with
      | some (b, rest2) => parseAddRest fuel (PyExpr.add acc b) rest2
      | Option.none => Option.none
  | fuel + 1, acc, Tok.minus :: rest =>
      match parseMul fuel rest with
      | some (b, rest2) => parseAddRest fuel (PyExpr.sub acc b) rest2
      | Option.none => Option.none
  | _ + 1, acc, toks => some (acc, toks)

end

/-- Parsing of an expression string, as `eval` performs before evaluating.
The whole token list must be consumed. -/
def pythonParse (s : String) : Option PyExpr :=
  match tokenize s with
  | Option.none => Option.none
  | some toks =>
      match parseAdd (4 * toks.length + 4) toks with
      | some (e, []) => some e
      | _ => Option.none

/-- The uncatchable fault class of `calculate`: exceptions deriving from
`BaseException` but not `Exception` leave the function. -/
inductive PyFault where
  | systemExit : PyFault
deriving DecidableEq, Repr

/-- The body of `calculate` after parsing: `eval` on the parsed expression,
with the `except SyntaxError / NameError / Exception` arms of tools.py
lines 188-193 mapped to their error strings.  `SystemExit` matches no arm
and escapes. -/
def calculateEval (g : Globals) (e : PyExpr) :
    Except PyFault (String × Globals) :=
  match pyEval g e with
  | (Except.ok v, g2) => Except.ok (pyStr v, g2)
  | (Except.error (PyErr.nameError _), g2) =>
      Except.ok
        ("Error: Invalid input in expression (e.g., non-numeric characters).",
          g2)
  | (Except.error (PyErr.exc msg), g2) =>
      Except.ok ("Error during calculation: " ++ msg, g2)
  | (Except.error PyErr.systemExit, _) => Except.error PyFault.systemExit

/-- `calculate(expression)` over the module globals `g`: parse (a parse
failure is the `SyntaxError` arm), then evaluate. -/
def calculateRun (g : Globals) (expression : String) :
    Except PyFault (String × Globals) :=
  match pythonParse expression with
  | Option.none => Except.ok ("Error: Invalid mathematical expression.", g)
  | some e => calculateEval g e

/-- `calculate(expression)` in a fresh interpreter (no keys created yet in
the reachable globals); the returned value is the tool result string, or
the escaping fault. -/
def calculate (expression : String) : Except PyFault String :=
  (calculateRun [] expression).map (fun p => p.1)

/-- Whether a string is one of the error strings `calculate` produces
(they all start with `Error`). -/
def isCalcErrorString (s : String) : Bool :=
  strHasSub s "Error"

/-! ### The control loop (agent.py)

`LLMAgent._build_workflow` compiles a graph with an `agent` node
(`_call_model`, appending the model response to `state["messages"]`), a
`tools` node (`ToolNode`, appending one tool-result message per request, in
request order), the conditional edge `_should_continue` (to `tools` when
the last message carries tool calls, otherwise `END`) and the edge
`tools → agent`.  `stream_query` iterates `app.astream`, which yields one
update per executed node; `run_query` collects the streamed updates and
returns the content of the last message of the last update.

The model is a black-box collaborator: any function from the current
transcript to a response.  The graph has no round bound, so the stepper is
fuel-indexed and returns `none` when the run does not terminate within the
fuel. -/

/-- A tool request carried by a model response: tool name plus a textual
argument rendering. -/
structure ToolCall where
  name : String
  args : String
deriving DecidableEq, Repr

/-- A transcript message: the user query, a model response (with its tool
requests), or a tool-result message tagged with the tool name it answers. -/
inductive Msg where
  | human (content : String) : Msg
  | ai (content : String) (toolCalls : List ToolCall) : Msg
  | toolMsg (name : String) (content : String) : Msg
deriving DecidableEq, Repr

/-- A model response: answer text plus the requested tool calls. -/
structure ModelResponse where
  content : String
  toolCalls : List ToolCall
deriving DecidableEq, Repr

/-- The message the `agent` node appends for a response. -/
def mkAI (r : ModelResponse) : Msg :=
  Msg.ai r.content r.toolCalls

/-- `_should_continue` (agent.py lines 43-51): inspect the last message;
route to the tools node exactly when it carries tool calls. -/
def should_continue (messages : List Msg) : Bool :=
  match messages.getLast? with
  | some (Msg.ai _ calls) => !calls.isEmpty
  | _ => false

/-- The `ToolNode` output for a list of requests: one tool-result message
per request, in request order, whose content is the tool result string. -/
def toolResults (tools : String → String → String) (calls : List ToolCall) :
    List Msg :=
  calls.map (fun c => Msg.toolMsg c.name (tools c.name c.args))

/-- One streamed update: the node that ran and the messages it appended. -/
inductive Chunk where
  | agent (msgs : List Msg) : Chunk
  | tools (msgs : List Msg) : Chunk
deriving DecidableEq, Repr

/-- The messages a streamed update appended. -/
def chunkMsgs : Chunk → List Msg
  | Chunk.agent ms => ms
  | Chunk.tools ms => ms

/-- Concatenation of the messages of a stream. -/
def streamMsgs : List Chunk → List Msg
  | [] => []
  | c :: rest => chunkMsgs c ++ streamMsgs rest

/-- The graph stepper underlying `app.astream`: run the `agent` node, apply
`_should_continue`; on `END` the stream finishes with the agent update, and
otherwise the `tools` node runs, its update is streamed and the loop
re-enters the agent node. -/
def streamLoop (model : List Msg → ModelResponse)
    (tools : String → String → String) :
    ℕ → List Msg → Option (List Chunk)
  | 0, _ => Option.none
  | fuel + 1, t =>
      if should_continue (t ++ [mkAI (model t)]) then
        match streamLoop model tools fuel
            ((t ++ [mkAI (model t)]) ++ toolResults tools (model t).toolCalls)
            with
        | some rest =>
            some (Chunk.agent [mkAI (model t)] ::
              Chunk.tools (toolResults tools (model t).toolCalls) :: rest)
        | Option.none => Option.none
      else
        some [Chunk.agent [mkAI (model t)]]

/-- `stream_query(query)` (agent.py lines 86-99): stream the updates of a
run seeded with the single user message. -/
def stream_query (model : List Msg → ModelResponse)
    (tools : String → String → String) (fuel : ℕ) (query : String) :
    Option (List Chunk) :=
  streamLoop model tools fuel [Msg.human query]

/-- `run_query(query)` (agent.py lines 68-84): collect the streamed updates,
take the last one, and return the content of the last message of its
`agent` update.  (The `"__end__" not in s` filter never drops an update:
node updates are keyed by node name.) -/
def run_query (model : List Msg → ModelResponse)
    (tools : String → String → String) (fuel : ℕ) (query : String) :
    Option String :=
  match stream_query model tools fuel query with
  | Option.none => Option.none
  | some chunks =>
      match chunks.getLast? with
      | some (Chunk.agent msgs) =>
          match msgs.getLast? with
          | some (Msg.ai c _) => some c
          | _ => Option.none
      | _ => Option.none

/-- The full transcript of a streamed run: the seed user message followed by
every appended message (`add_messages` appends node outputs in order). -/
def transcript (query : String) (chunks : List Chunk) : List Msg :=
  Msg.human query :: streamMsgs chunks

/-- `answeredAux pending msgs`: every tool request in `msgs` is immediately
followed by its tool-result messages, in request order, with the requests
`pending` still awaiting results at the front. -/
def answeredAux : List ToolCall → List Msg → Bool
  | [], [] => true
  | [], Msg.human _ :: rest => answeredAux [] rest
  | [], Msg.toolMsg _ _ :: rest => answeredAux [] rest
  | [], Msg.ai _ calls :: rest => answeredAux calls rest
  | c :: cs, Msg.toolMsg n _ :: rest => n == c.name && answeredAux cs rest
  | _ :: _, _ => false

/-- A transcript leaves no tool request unanswered: each request is followed
by a matching tool-result message before the next model round. -/
def answered (msgs : List Msg) : Bool :=
  answeredAux [] msgs

/-! ### Control-loop lemmas -/

/-- `_should_continue` on a transcript ending in a model response routes on
the tool calls of that response. -/
theorem should_continue_concat (t : List Msg) (r : ModelResponse) :
    should_continue (t ++ [mkAI r]) = !r.toolCalls.isEmpty := by
  simp [should_continue, mkAI, List.getLast?_concat]

/-- A `ToolNode` output answers exactly the pending requests. -/
theorem answeredAux_toolResults (tools : String → String → String) :
    ∀ calls : List ToolCall,
      answeredAux calls (toolResults tools calls) = true := by
  intro calls
  induction calls with
  | nil => rfl
  | cons c cs ih => simp [toolResults, answeredAux] at ih ⊢; exact ih

/-- One model round together with its tool results leaves nothing
unanswered. -/
theorem answered_block (tools : String → String → String)
    (r : ModelResponse) :
    answeredAux [] (mkAI r :: toolResults tools r.toolCalls) = true := by
  simp [mkAI, answeredAux]
  exact answeredAux_toolResults tools r.toolCalls

/-- Appending a fully answered block preserves the no-unanswered-request
invariant. -/
theorem answeredAux_append :
    ∀ (t : List Msg) (pending : List ToolCall) (rest : List Msg),
      answeredAux pending t = true → answeredAux [] rest = true →
      answeredAux pending (t ++ rest) = true := by
  intro t
  induction t with
  | nil =>
      intro pending rest h1 h2
      cases pending with
      | nil => simpa using h2
      | cons c cs => simp [answeredAux] at h1
  | cons m t2 ih =>
      intro pending rest h1 h2
      cases pending with
      | nil =>
          cases m with
          | human s =>
              simp only [answeredAux] at h1
              simpa [answeredAux] using ih [] rest h1 h2
          | toolMsg n c =>
              simp only [answeredAux] at h1
              simpa [answeredAux] using ih [] rest h1 h2
          | ai c calls =>
              simp only [answeredAux] at h1
              simpa [answeredAux] using ih calls rest h1 h2
      | cons c cs =>
          cases m with
          | human s => simp [answeredAux] at h1
          | ai c2 calls => simp [answeredAux] at h1
          | toolMsg n c2 =>
              simp only [answeredAux, Bool.and_eq_true] at h1
              simp only [List.cons_append, answeredAux, Bool.and_eq_true]
              exact ⟨h1.1, ih cs rest h1.2 h2⟩

/-- Shape of every terminating run of the stepper: the last streamed update
is an agent update whose message carries no tool calls, that message closes
the transcript, and the run preserves the no-unanswered-request
invariant. -/
theorem streamLoop_spec (model : List Msg → ModelResponse)
    (tools : String → String → String) :
    ∀ (fuel : ℕ) (t : List Msg) (chunks : List Chunk),
      streamLoop model tools fuel t = some chunks →
      ∃ ans, chunks.getLast? = some (Chunk.agent [Msg.ai ans []]) ∧
        (t ++ streamMsgs chunks).getLast? = some (Msg.ai ans []) ∧
        (answered t = true → answered (t ++ streamMsgs chunks) = true) := by
  intro fuel
  induction fuel with
  | zero => intro t chunks h; simp [streamLoop] at h
  | succ fuel ih =>
      intro t chunks h
      rw [streamLoop, should_continue_concat] at h
      cases hE : (model t).toolCalls with
      | nil =>
          rw [hE] at h
          simp only [List.isEmpty_nil, Bool.not_true, if_false,
            Bool.false_eq_true, if_neg] at h
          cases h
          refine ⟨(model t).content, ?_, ?_, ?_⟩
          · simp [mkAI, hE]
          · simp [streamMsgs, chunkMsgs, mkAI, hE, List.getLast?_concat]
          · intro ha
            have hb : answeredAux []
                (streamMsgs [Chunk.agent [mkAI (model t)]]) = true := by
              simp [streamMsgs, chunkMsgs, mkAI, answeredAux, hE]
            exact answeredAux_append t [] _ ha hb
      | cons c cs =>
          rw [hE] at h
          simp only [List.isEmpty_cons, Bool.not_false, if_true] at h
          rw [← hE] at h
          cases hs : streamLoop model tools fuel
              ((t ++ [mkAI (model t)]) ++
                toolResults tools (model t).toolCalls) with
          | none => rw [hs] at h; cases h
          | some rest =>
              rw [hs] at h
              cases h
              obtain ⟨ans, h1, h2, h3⟩ := ih _ rest hs
              refine ⟨ans, ?_, ?_, ?_⟩
              · cases rest with
                | nil => simp at h1
                | cons r0 rrest =>
                    rw [List.getLast?_cons_cons, List.getLast?_cons_cons]
                    exact h1
              · have e : t ++ streamMsgs
                    (Chunk.agent [mkAI (model t)] ::
                      Chunk.tools (toolResults tools (model t).toolCalls)
                      :: rest) =
                    ((t ++ [mkAI (model t)]) ++
                      toolResults tools (model t).toolCalls) ++
                      streamMsgs rest := by
                  simp [streamMsgs, chunkMsgs, List.append_assoc]
                rw [e]
                exact h2
              · intro ha
                have e : t ++ streamMsgs
                    (Chunk.agent [mkAI (model t)] ::
                      Chunk.tools (toolResults tools (model t).toolCalls)
                      :: rest) =
                    ((t ++ [mkAI (model t)]) ++
                      toolResults tools (model t).toolCalls) ++
                      streamMsgs rest := by
                  simp [streamMsgs, chunkMsgs, List.append_assoc]
                rw [e]
                apply h3
                have hb := answered_block tools (model t)
                have := answeredAux_append t []
                  (mkAI (model t) :: toolResults tools (model t).toolCalls)
                  ha hb
                unfold answered
                have e2 : (t ++ [mkAI (model t)]) ++
                    toolResults tools (model t).toolCalls =
                    t ++ (mkAI (model t) ::
                      toolResults tools (model t).toolCalls) := by
                  simp
                rw [e2]
                exact this

/-! ### Substring lemmas -/

/-- A match of the needle at the head survives extending the haystack. -/
theorem subAt_append :
    ∀ (n h rest : List Char), subAt n h = true → subAt n (h ++ rest) = true := by
  intro n
  induction n with
  | nil => intro h rest _; rfl
  | cons a as2 ihn =>
      intro h rest h1
      cases h with
      | nil => simp [subAt] at h1
      | cons b bs =>
          simp only [subAt, Bool.and_eq_true] at h1
          simp only [List.cons_append, subAt, Bool.and_eq_true]
          exact ⟨h1.1, ihn bs rest h1.2⟩

/-- A needle matching at the head occurs in the haystack. -/
theorem hasSub_of_subAt_here (hay n : List Char) (h : subAt n hay = true) :
    hasSub hay n = true := by
  cases hay with
  | nil => simpa [hasSub] using h
  | cons c t => simp only [hasSub, Bool.or_eq_true]; exact Or.inl h

/-- The zero-matches error message always contains the substring the tests
assert. -/
theorem geo_msg_has_sub (city : String) :
    strHasSub ("Could not find coordinates for city: " ++ city)
      "Could not find coordinates" = true := by
  unfold strHasSub
  have e : ("Could not find coordinates for city: " ++ city).data =
      "Could not find coordinates for city: ".data ++ city.data := rfl
  rw [e]
  exact hasSub_of_subAt_here _ _ (subAt_append _ _ _ rfl)

/-! ### Claim theorems -/

/-- C5: when the geocoding upstream returns zero matches (a missing or empty
`results`), `get_coordinates_from_city` returns exactly the payload
`{"error": "Could not find coordinates for city: <city_name>"}`, whose
message contains the substring `Could not find coordinates`; in particular
the call for `imaginary_city_123` yields exactly the asserted payload. -/
theorem geocoding_zero_matches_payload :
    (∀ city : String,
      get_coordinates_from_city city (Upstream.ok ⟨Option.none⟩) =
        errPayload ("Could not find coordinates for city: " ++ city) ∧
      get_coordinates_from_city city (Upstream.ok ⟨some []⟩) =
        errPayload ("Could not find coordinates for city: " ++ city) ∧
      strHasSub ("Could not find coordinates for city: " ++ city)
        "Could not find coordinates" = true) ∧
    get_coordinates_from_city "imaginary_city_123" (Upstream.ok ⟨some []⟩) =
      [("error",
        JVal.str "Could not find coordinates for city: imaginary_city_123")] := by
  refine ⟨fun city => ⟨rfl, rfl, geo_msg_has_sub city⟩, rfl⟩

/-- C6: when the encyclopedia upstream marks the page missing or returns no
page entries, `search_wikipedia` returns an error payload whose message
contains `No Wikipedia article found` up to letter case (the source spells
it with a lowercase w, and drops a word in the missing-page variant). -/
theorem wikipedia_not_found_payload :
    (∀ q : String, search_wikipedia q (Upstream.ok ⟨Option.none⟩) =
      errPayload "No wikipedia article found for the query") ∧
    (∀ q : String, search_wikipedia q (Upstream.ok ⟨some Option.none⟩) =
      errPayload "No wikipedia article found for the query") ∧
    (∀ q : String, search_wikipedia q (Upstream.ok ⟨some (some [])⟩) =
      errPayload "No wikipedia article found for the query") ∧
    (∀ (q pid : String) (p : WikiPage) (rest : List (String × WikiPage)),
      p.hasMissing = true →
      search_wikipedia q (Upstream.ok ⟨some (some ((pid, p) :: rest))⟩) =
        errPayload "No wikipedia article found the query") ∧
    strHasSubCI "No wikipedia article found for the query"
      "No Wikipedia article found" = true ∧
    strHasSubCI "No wikipedia article found the query"
      "No Wikipedia article found" = true := by
  refine ⟨fun q => rfl, fun q => rfl, fun q => rfl, ?_, by decide, by decide⟩
  intro q pid p rest hp
  simp [search_wikipedia, wikiPages, hp]

/-- A page entry carrying the `missing` marker, as in the test mock
`{"query": {"pages": {"-1": {"missing": ""}}}}`. -/
def missingPage : WikiPage :=
  ⟨true, Option.none, false, Option.none, Option.none, Option.none⟩

/-- C6 witness: the missing-page branch evaluated at the test mock. -/
theorem wikipedia_not_found_payload_witness :
    missingPage.hasMissing = true ∧
    search_wikipedia "Zorp the Destroyer"
      (Upstream.ok ⟨some (some [("-1", missingPage)])⟩) =
      errPayload "No wikipedia article found the query" :=
  ⟨rfl, wikipedia_not_found_payload.2.2.2.1 "Zorp the Destroyer" "-1"
    missingPage [] rfl⟩

/-- C7: `calculate("10 + 5 * 2")` returns the string `20`: the expression
parses with standard operator precedence (multiplication binds tighter) and
evaluates to the integer 20. -/
theorem calculate_precedence : calculate "10 + 5 * 2" = Except.ok "20" := rfl

/-- C1 fails on the code: `calculate` hands the input string to the
general-purpose evaluator.  The input `True` lies outside the arithmetic
grammar (it is no number, operator or parenthesis), yet it is evaluated as
Python — the builtin constant resolves and the call returns the string
`True`, which is not an error string. -/
theorem calculate_evaluates_outside_grammar :
    calculate "True" = Except.ok "True" ∧
    isCalcErrorString "True" = false :=
  ⟨rfl, rfl⟩

/-- C3 fails on the code for the fourth tool: `eval("exit()")` raises
`SystemExit`, which derives from `BaseException` but not `Exception`, so no
`except` arm of `calculate` catches it and the fault leaves the tool
instead of a result string being returned. -/
theorem calculate_exit_uncaught :
    calculateRun [] "exit()" = Except.error PyFault.systemExit := rfl

/-- The Python expression
`(globals().__setitem__("x", globals().get("x", 0) + 1), globals()["x"])`
as parsed by `eval`: it increments the module global `x` and reads it
back. -/
def c9expr : PyExpr :=
  PyExpr.tupleE
    (PyExpr.call2
      (PyExpr.attr (PyExpr.call0 (PyExpr.name "globals")) "__setitem__")
      (PyExpr.strLit "x")
      (PyExpr.add
        (PyExpr.call2
          (PyExpr.attr (PyExpr.call0 (PyExpr.name "globals")) "get")
          (PyExpr.strLit "x") (PyExpr.intLit 0))
        (PyExpr.intLit 1)))
    (PyExpr.subscript (PyExpr.call0 (PyExpr.name "globals"))
      (PyExpr.strLit "x"))

/-- C9 fails on the code: `eval` gives the expression access to the mutable
module globals, so two invocations of `calculate` with the identical
argument `c9expr` (and no upstream at all) return different payloads —
`(None, 1)` the first time and `(None, 2)` the second. -/
theorem calculate_hidden_mutable_state :
    calculateEval [] c9expr =
      Except.ok ("(None, 1)", [("x", PyVal.int 1)]) ∧
    calculateEval [("x", PyVal.int 1)] c9expr =
      Except.ok ("(None, 2)", [("x", PyVal.int 2)]) ∧
    ("(None, 1)" : String) ≠ "(None, 2)" :=
  ⟨rfl, rfl, by decide⟩

/-! ### Weather-tool lemmas -/

/-- Reduction of a successful weather call: when the `current` block is
present and all six of its fields validate, the output is the eight-field
snapshot built from the two arguments and the six block fields. -/
theorem get_current_weather_success (lat lon : ℚ) (d : WeatherData)
    (c : CurrentBlock) (t w h : ℚ) (dy wc : ℤ) (tm : String)
    (hcur : d.current = some c)
    (h1 : coerceFloat c.temperature_2m = some t)
    (h2 : coerceFloat c.wind_speed_10m = some w)
    (h3 : coerceFloat c.relative_humidity_2m = some h)
    (h4 : coerceInt c.is_day = some dy)
    (h5 : coerceInt c.weather_code = some wc)
    (h6 : coerceStr c.time = some tm) :
    get_current_weather lat lon (Upstream.ok d) =
      [("latitude", JVal.num lat), ("longitude", JVal.num lon),
       ("temperature", JVal.num t), ("wind_speed", JVal.num w),
       ("relative_humidity_2m", JVal.num h),
       ("is_day", JVal.num (dy : ℚ)), ("weather_code", JVal.num (wc : ℚ)),
       ("time", JVal.str tm)] := by
  simp [get_current_weather, hcur, h1, h2, h3, h4, h5, h6]

/-- An empty validation-error list means every field of the block
validates. -/
theorem weatherFieldErrors_nil (c : CurrentBlock)
    (h : weatherFieldErrors c = []) :
    ∃ (t w hq : ℚ) (dy wc : ℤ) (tm : String),
      coerceFloat c.temperature_2m = some t ∧
      coerceFloat c.wind_speed_10m = some w ∧
      coerceFloat c.relative_humidity_2m = some hq ∧
      coerceInt c.is_day = some dy ∧
      coerceInt c.weather_code = some wc ∧
      coerceStr c.time = some tm := by
  unfold weatherFieldErrors at h
  cases h1 : coerceFloat c.temperature_2m with
  | none => simp [h1] at h
  | some t =>
  cases h2 : coerceFloat c.wind_speed_10m with
  | none => simp [h1, h2] at h
  | some w =>
  cases h3 : coerceFloat c.relative_humidity_2m with
  | none => simp [h1, h2, h3] at h
  | some hq =>
  cases h4 : coerceInt c.is_day with
  | none => simp [h1, h2, h3, h4] at h
  | some dy =>
  cases h5 : coerceInt c.weather_code with
  | none => simp [h1, h2, h3, h4, h5] at h
  | some wc =>
  cases h6 : coerceStr c.time with
  | none => simp [h1, h2, h3, h4, h5, h6] at h
  | some tm => exact ⟨t, w, hq, dy, wc, tm, rfl, rfl, rfl, rfl, rfl, rfl⟩


/-- Reduction of a failed validation: when some field of the block does not
validate, the output is the schema-error payload. -/
theorem get_current_weather_schema_error (lat lon : ℚ) (d : WeatherData)
    (c : CurrentBlock) (hcur : d.current = some c)
    (hne : weatherFieldErrors c ≠ []) :
    get_current_weather lat lon (Upstream.ok d) =
      schemaErrPayload "weather data" (weatherFieldErrors c) := by
  cases h1 : coerceFloat c.temperature_2m with
  | none => simp [get_current_weather, hcur, h1]
  | some t =>
  cases h2 : coerceFloat c.wind_speed_10m with
  | none => simp [get_current_weather, hcur, h1, h2]
  | some w =>
  cases h3 : coerceFloat c.relative_humidity_2m with
  | none => simp [get_current_weather, hcur, h1, h2, h3]
  | some hq =>
  cases h4 : coerceInt c.is_day with
  | none => simp [get_current_weather, hcur, h1, h2, h3, h4]
  | some dy =>
  cases h5 : coerceInt c.weather_code with
  | none => simp [get_current_weather, hcur, h1, h2, h3, h4, h5]
  | some wc =>
  cases h6 : coerceStr c.time with
  | none => simp [get_current_weather, hcur, h1, h2, h3, h4, h5, h6]
  | some tm =>
      exfalso
      apply hne
      simp [weatherFieldErrors, h1, h2, h3, h4, h5, h6]

/-- The `current` block of the test mock for London. -/
def londonCurrent : CurrentBlock :=
  ⟨some (JVal.num 15.5), some (JVal.num 12.3), some (JVal.num 75),
    some (JVal.num 1), some (JVal.num 3),
    some (JVal.str "2025-06-01T10:00Z")⟩

/-- The decoded forecast document of the test mock for London, including
the upstream-echoed coordinates that the source ignores. -/
def londonWeather : WeatherData :=
  ⟨some (JVal.num 51.5074), some (JVal.num (-0.1278)), some londonCurrent⟩

/-- Whether an optional JSON value is a boolean. -/
def isBoolVal : Option JVal → Bool
  | some (JVal.bool _) => true
  | _ => false

/-- C4 counterexample: on the successful London response the serialized
`is_day` field is the JSON number 1 — the `CurrentWeather` model declares
`is_day: int` — not a JSON boolean, contradicting the claimed
"day/night flag as a boolean". -/
theorem weather_is_day_not_boolean :
    (get_current_weather 51.5074 (-0.1278)
      (Upstream.ok londonWeather)).lookup "is_day" = some (JVal.num 1) ∧
    isBoolVal ((get_current_weather 51.5074 (-0.1278)
      (Upstream.ok londonWeather)).lookup "is_day") = false := by
  constructor <;> decide

/-- C4 (amended): a successful `get_current_weather` call returns the
snapshot with all eight required fields — latitude, longitude, temperature,
wind speed, relative humidity, the day/night flag as a 0/1 integer, the
integer weather code and the timestamp string — and that payload
round-trips through the declared `CurrentWeather` shape; if any of the six
upstream `current` fields is absent, the call yields the schema-validation
error payload instead. -/
theorem weather_snapshot_shape :
    (∀ (lat lon : ℚ) (d : WeatherData) (c : CurrentBlock)
      (t w h : ℚ) (dy wc : ℤ) (tm : String),
      d.current = some c →
      coerceFloat c.temperature_2m = some t →
      coerceFloat c.wind_speed_10m = some w →
      coerceFloat c.relative_humidity_2m = some h →
      coerceInt c.is_day = some dy →
      coerceInt c.weather_code = some wc →
      coerceStr c.time = some tm →
      get_current_weather lat lon (Upstream.ok d) =
        [("latitude", JVal.num lat), ("longitude", JVal.num lon),
         ("temperature", JVal.num t), ("wind_speed", JVal.num w),
         ("relative_humidity_2m", JVal.num h),
         ("is_day", JVal.num (dy : ℚ)), ("weather_code", JVal.num (wc : ℚ)),
         ("time", JVal.str tm)] ∧
      validatesAsCurrentWeather
        (get_current_weather lat lon (Upstream.ok d)) = true) ∧
    (∀ (lat lon : ℚ) (d : WeatherData) (c : CurrentBlock),
      d.current = some c →
      weatherFieldErrors c ≠ [] →
      get_current_weather lat lon (Upstream.ok d) =
        schemaErrPayload "weather data" (weatherFieldErrors c)) := by
  constructor
  · intro lat lon d c t w h dy wc tm hcur h1 h2 h3 h4 h5 h6
    have e := get_current_weather_success lat lon d c t w h dy wc tm
      hcur h1 h2 h3 h4 h5 h6
    refine ⟨e, ?_⟩
    rw [e]
    simp [validatesAsCurrentWeather, JObj.lookup, coerceFloat, coerceInt,
      coerceStr]
  · exact fun lat lon d c hcur hne =>
      get_current_weather_schema_error lat lon d c hcur hne

/-- A `current` block whose `temperature_2m` field is absent. -/
def curMissingTemp : CurrentBlock :=
  ⟨Option.none, some (JVal.num 12.3), some (JVal.num 75),
    some (JVal.num 1), some (JVal.num 3),
    some (JVal.str "2025-06-01T10:00Z")⟩

/-- C4 witness: both branches of the amended claim evaluated at the London
mock and at a mock missing `temperature_2m`. -/
theorem weather_snapshot_shape_witness :
    get_current_weather 51.5074 (-0.1278) (Upstream.ok londonWeather) =
      [("latitude", JVal.num 51.5074), ("longitude", JVal.num (-0.1278)),
       ("temperature", JVal.num 15.5), ("wind_speed", JVal.num 12.3),
       ("relative_humidity_2m", JVal.num 75),
       ("is_day", JVal.num ((1 : ℤ) : ℚ)),
       ("weather_code", JVal.num ((3 : ℤ) : ℚ)),
       ("time", JVal.str "2025-06-01T10:00Z")] ∧
    validatesAsCurrentWeather (get_current_weather 51.5074 (-0.1278)
      (Upstream.ok londonWeather)) = true ∧
    get_current_weather 51.5074 (-0.1278)
      (Upstream.ok ⟨Option.none, Option.none, some curMissingTemp⟩) =
      schemaErrPayload "weather data" ["temperature"] := by
  refine ⟨?_, ?_, ?_⟩
  · exact (weather_snapshot_shape.1 51.5074 (-0.1278) londonWeather
      londonCurrent 15.5 12.3 75 1 3 "2025-06-01T10:00Z"
      rfl rfl rfl rfl (by decide) (by decide) rfl).1
  · exact (weather_snapshot_shape.1 51.5074 (-0.1278) londonWeather
      londonCurrent 15.5 12.3 75 1 3 "2025-06-01T10:00Z"
      rfl rfl rfl rfl (by decide) (by decide) rfl).2
  · exact (weather_snapshot_shape.2 51.5074 (-0.1278)
      ⟨Option.none, Option.none, some curMissingTemp⟩ curMissingTemp
      rfl (by decide)).trans (by decide)

/-- C10: the latitude and longitude of the returned snapshot are exactly
the caller-supplied arguments; the upstream-echoed `latitude` and
`longitude` of the forecast document are never read, so the output is
independent of them. -/
theorem weather_uses_argument_coords :
    (∀ (lat lon : ℚ) (a b a2 b2 : Option JVal) (cur : Option CurrentBlock),
      get_current_weather lat lon (Upstream.ok ⟨a, b, cur⟩) =
        get_current_weather lat lon (Upstream.ok ⟨a2, b2, cur⟩)) ∧
    (∀ (lat lon : ℚ) (d : WeatherData) (c : CurrentBlock),
      d.current = some c →
      weatherFieldErrors c = [] →
      (get_current_weather lat lon (Upstream.ok d)).lookup "latitude" =
        some (JVal.num lat) ∧
      (get_current_weather lat lon (Upstream.ok d)).lookup "longitude" =
        some (JVal.num lon)) := by
  constructor
  · intro lat lon a b a2 b2 cur
    rfl
  · intro lat lon d c hcur hnil
    obtain ⟨t, w, hq, dy, wc, tm, h1, h2, h3, h4, h5, h6⟩ :=
      weatherFieldErrors_nil c hnil
    rw [get_current_weather_success lat lon d c t w hq dy wc tm
      hcur h1 h2 h3 h4 h5 h6]
    constructor <;> rfl

/-- C10 witness: both parts at the London mock, whose upstream-echoed
coordinates differ from the arguments passed below. -/
theorem weather_uses_argument_coords_witness :
    get_current_weather 48.85 2.35 (Upstream.ok londonWeather) =
      get_current_weather 48.85 2.35
        (Upstream.ok ⟨Option.none, Option.none, some londonCurrent⟩) ∧
    (get_current_weather 48.85 2.35
      (Upstream.ok londonWeather)).lookup "latitude" =
      some (JVal.num 48.85) ∧
    (get_current_weather 48.85 2.35
      (Upstream.ok londonWeather)).lookup "longitude" =
      some (JVal.num 2.35) := by
  refine ⟨?_, ?_⟩
  · exact weather_uses_argument_coords.1 48.85 2.35
      (some (JVal.num 51.5074)) (some (JVal.num (-0.1278)))
      Option.none Option.none (some londonCurrent)
  · exact weather_uses_argument_coords.2 48.85 2.35 londonWeather
      londonCurrent rfl (by decide)

/-- C2: a run returns a final answer exactly when the latest model response
carries no tool requests — a request-free response terminates the loop at
once, and every terminating run ends the transcript with a request-free
model message — and at that point every tool request in the transcript is
followed by its matching tool-result message (no unanswered request
remains). -/
theorem control_loop_answers_all_requests :
    (∀ (model : List Msg → ModelResponse) (tools : String → String → String)
      (fuel : ℕ) (t : List Msg),
      (model t).toolCalls = [] →
      streamLoop model tools (fuel + 1) t =
        some [Chunk.agent [mkAI (model t)]]) ∧
    (∀ (model : List Msg → ModelResponse) (tools : String → String → String)
      (fuel : ℕ) (query : String) (chunks : List Chunk),
      stream_query model tools fuel query = some chunks →
      ∃ ans, (transcript query chunks).getLast? = some (Msg.ai ans []) ∧
        answered (transcript query chunks) = true) := by
  constructor
  · intro model tools fuel t h
    rw [streamLoop, should_continue_concat, h]
    simp
  · intro model tools fuel query chunks h
    obtain ⟨ans, _, h2, h3⟩ := streamLoop_spec model tools fuel _ chunks h
    refine ⟨ans, h2, h3 rfl⟩

/-- The tool executor of the demonstration run: every call returns `20`. -/
def demoTool : String → String → String := fun _ _ => "20"

/-- A two-round model script: with only the user message in the transcript
it requests `calculate`, afterwards it answers directly. -/
def demoModel : List Msg → ModelResponse := fun t =>
  if t.length ≤ 1 then
    ⟨"", [⟨"calculate", "10 + 5 * 2"⟩]⟩
  else ⟨"The answer is 20", []⟩

/-- The stream the demonstration run produces. -/
def demoChunks : List Chunk :=
  [Chunk.agent [Msg.ai "" [⟨"calculate", "10 + 5 * 2"⟩]],
   Chunk.tools [Msg.toolMsg "calculate" "20"],
   Chunk.agent [Msg.ai "The answer is 20" []]]

/-- C2 witness: the two-round demonstration run terminates and leaves no
unanswered tool request in its transcript. -/
theorem control_loop_answers_all_requests_witness :
    stream_query demoModel demoTool 2 "What is 10 + 5 * 2?" =
      some demoChunks ∧
    answered (transcript "What is 10 + 5 * 2?" demoChunks) = true := by
  refine ⟨rfl, ?_⟩
  obtain ⟨ans, h1, h2⟩ := control_loop_answers_all_requests.2 demoModel
    demoTool 2 "What is 10 + 5 * 2?" demoChunks rfl
  exact h2

/-- C8: for every model and tool behavior, `run_query` returns exactly the
content of the final model message of the last state `stream_query`
produces on the same query. -/
theorem run_query_matches_stream :
    ∀ (model : List Msg → ModelResponse) (tools : String → String → String)
      (fuel : ℕ) (query : String) (chunks : List Chunk),
      stream_query model tools fuel query = some chunks →
      ∃ msgs c, chunks.getLast? = some (Chunk.agent msgs) ∧
        msgs.getLast? = some (Msg.ai c []) ∧
        run_query model tools fuel query = some c := by
  intro model tools fuel query chunks h
  obtain ⟨ans, h1, _, _⟩ := streamLoop_spec model tools fuel _ chunks h
  refine ⟨[Msg.ai ans []], ans, h1, rfl, ?_⟩
  unfold run_query
  rw [h]
  simp [h1]

/-- C8 witness: the demonstration run, where `run_query` returns the
content of the closing model message of the last streamed state. -/
theorem run_query_matches_stream_witness :
    stream_query demoModel demoTool 2 "What is 10 + 5 * 2?" =
      some demoChunks ∧
    run_query demoModel demoTool 2 "What is 10 + 5 * 2?" =
      some "The answer is 20" := by
  refine ⟨rfl, ?_⟩
  obtain ⟨msgs, c, h1, h2, h3⟩ := run_query_matches_stream demoModel
    demoTool 2 "What is 10 + 5 * 2?" demoChunks rfl
  have e : demoChunks.getLast? =
      some (Chunk.agent [Msg.ai "The answer is 20" []]) := rfl
  rw [e] at h1
  simp only [Option.some.injEq, Chunk.agent.injEq] at h1
  subst h1
  simp only [List.getLast?_singleton, Option.some.injEq] at h2
  rw [← show c = "The answer is 20" from (Msg.ai.injEq _ _ _ _).mp h2.symm
    |>.1]
  exact h3

end AgentSpec
